import Mathlib

set_option maxHeartbeats 1000000

/-
Verification development for the phantom-lens capture-to-response pipeline.

Shallow embedding of:
- src/electron/ScreenshotHelper.ts (bounded disk-backed capture queues)
- the ProcessingHelper (request orchestrator: streaming, cancellation,
  failure classification)
- src/electron/ipcHandlers.ts (view/interactivity state machine, window
  geometry updates, main-process response history)
- the renderer useResponseHistory hook (bounded response history)

The single-threaded cooperative scheduling of the source is modelled by
making each operation an atomic state transition; the file system is a list
of live paths; the main window is modelled as present and not destroyed;
the provider stream is an environment input (a script of chunks followed by
a terminal event).
-/

namespace PhantomLens

/-- View of the overlay window, mirroring the string union
"initial" or "response" or "followup" used by ScreenshotHelper.view and
state.view. The spec calls the initial view Idle and the response and
followup views the non-Idle views. -/
inductive View
  | initial
  | response
  | followup
  deriving DecidableEq, Repr

/-- App mode, mirroring the "normal" or "stealth" union in ipcHandlers.ts.
The stealth mode is the user-toggled flag that requests inertness. -/
inductive Mode
  | normal
  | stealth
  deriving DecidableEq, Repr

/-! Section: Capture Store: ScreenshotHelper.ts -/

/-- State of a ScreenshotHelper instance together with the file system
(the list of live screenshot file paths). -/
structure SHState where
  screenshotQueue : List String
  extraScreenshotQueue : List String
  isProcessingQueue : Bool
  isCapturingScreenshot : Bool
  view : View
  files : List String
  deriving DecidableEq, Repr

/-- Errors thrown by ScreenshotHelper operations: the queue-busy error of
addToQueue and the capture-busy error of takeScreenshot. -/
inductive SHError
  | queueBusy
  | captureBusy
  deriving DecidableEq, Repr

/-- fs.promises.writeFile: the path becomes live (idempotent on the path set). -/
def fsWrite (files : List String) (filePath : String) : List String :=
  if filePath ∈ files then files else files ++ [filePath]

/-- safeUnlinkFile: deletes the file if it exists, no-op otherwise
(ScreenshotHelper.safeUnlinkFile). -/
def safeUnlinkFile (files : List String) (filePath : String) : List String :=
  files.filter (fun q => decide (q ≠ filePath))

/-- MAX_SCREENSHOTS: capacity bound of each capture queue. -/
def MAX_SCREENSHOTS : Nat := 1

/-- cleanupOldScreenshots: if the queue exceeds maxSize, the oldest entries
are removed and their backing files deleted; returns the remaining queue and
the updated file system (ScreenshotHelper.cleanupOldScreenshots). -/
def cleanupOldScreenshots (queue : List String) (maxSize : Nat)
    (files : List String) : List String × List String :=
  if queue.length ≤ maxSize then (queue, files)
  else
    let filesToRemove := queue.take (queue.length - maxSize)
    let remainingFiles := queue.drop (queue.length - maxSize)
    (remainingFiles, filesToRemove.foldl safeUnlinkFile files)

/-- addToQueue: serialized insert respecting the bound. If queue processing
is in flight (and remains so after the 100ms wait) it throws the queue-busy
error without touching any state; otherwise it pushes the path and trims the
queue to MAX_SCREENSHOTS, deleting evicted files
(ScreenshotHelper.addToQueue). -/
def addToQueue (s : SHState) (filePath : String) (isExtraQueue : Bool) :
    Except SHError SHState :=
  if s.isProcessingQueue then Except.error SHError.queueBusy
  else if isExtraQueue then
    let q := s.extraScreenshotQueue ++ [filePath]
    let r := cleanupOldScreenshots q MAX_SCREENSHOTS s.files
    Except.ok { s with extraScreenshotQueue := r.1, files := r.2,
                       isProcessingQueue := false }
  else
    let q := s.screenshotQueue ++ [filePath]
    let r := cleanupOldScreenshots q MAX_SCREENSHOTS s.files
    Except.ok { s with screenshotQueue := r.1, files := r.2,
                       isProcessingQueue := false }

/-- clearQueues of ScreenshotHelper: empties both queues and deletes all
backing files, best effort. -/
def clearQueuesSH (s : SHState) : SHState :=
  let files1 := s.screenshotQueue.foldl safeUnlinkFile s.files
  let files2 := s.extraScreenshotQueue.foldl safeUnlinkFile files1
  { s with screenshotQueue := [], extraScreenshotQueue := [], files := files2,
           isProcessingQueue := false }

/-- clearExtraScreenshotQueue: empties only the follow-up queue and deletes
its backing files. -/
def clearExtraScreenshotQueueSH (s : SHState) : SHState :=
  let files1 := s.extraScreenshotQueue.foldl safeUnlinkFile s.files
  { s with extraScreenshotQueue := [], files := files1,
           isProcessingQueue := false }

/-- takeScreenshot with the platform capture succeeding and producing a
non-empty buffer (the capture-failed branches are terminal throws that touch
no queue state). The screenshot is written to newPath, then enqueued; if the
enqueue throws, the just-written file is deleted before the error is
propagated (ScreenshotHelper.takeScreenshot). -/
def takeScreenshot (s : SHState) (newPath : String) :
    SHState × Except SHError String :=
  if s.isCapturingScreenshot then (s, Except.error SHError.captureBusy)
  else
    let s0 := { s with isCapturingScreenshot := true }
    let isExtraQueue := decide (s0.view ≠ View.initial)
    let s1 := { s0 with files := fsWrite s0.files newPath }
    match addToQueue s1 newPath isExtraQueue with
    | Except.ok s2 => ({ s2 with isCapturingScreenshot := false },
                       Except.ok newPath)
    | Except.error e =>
        ({ s1 with files := safeUnlinkFile s1.files newPath,
                   isCapturingScreenshot := false }, Except.error e)

/-- One add operation of the C1 scenario: the capture file is written and
then enqueued (the write-then-addToQueue tail of takeScreenshot). In a
serialized run the enqueue cannot fail; the error branch keeps the
pre-enqueue state. -/
def addOp (s : SHState) (p : String) (isExtraQueue : Bool) : SHState :=
  let s1 := { s with files := fsWrite s.files p }
  match addToQueue s1 p isExtraQueue with
  | Except.ok s2 => s2
  | Except.error _ => s1

/-- A serialized sequence of add operations against one queue kind. -/
def runAdds (s : SHState) (isExtraQueue : Bool) (ps : List String) : SHState :=
  ps.foldl (fun st p => addOp st p isExtraQueue) s

/-- The queue of the given kind. -/
def queueOf (s : SHState) (isExtraQueue : Bool) : List String :=
  match isExtraQueue with
  | true => s.extraScreenshotQueue
  | false => s.screenshotQueue

/-- Fresh ScreenshotHelper state: both queues empty, no files, idle flags. -/
def shInit : SHState :=
  { screenshotQueue := [], extraScreenshotQueue := [],
    isProcessingQueue := false, isCapturingScreenshot := false,
    view := View.initial, files := [] }

/-- Invariant of a serialized run against one queue kind: not mid-insert,
the queue respects the bound, the live files are exactly the queued paths,
and the other queue is untouched. -/
def QueueInv (b : Bool) (s : SHState) : Prop :=
  s.isProcessingQueue = false
  ∧ (queueOf s b).length ≤ 1
  ∧ s.files = queueOf s b
  ∧ queueOf s (!b) = []

/-! Section: Events sent to the renderer (webContents.send of PROCESSING_EVENTS) -/

/-- Events the main process sends to the renderer, from
PROCESSING_EVENTS plus the view-changed and reset-view channels. -/
inductive Event
  | initialStart
  | followUpStart
  | responseChunk (text : String)
  | responseSuccess (text : String)
  | initialResponseError (msg : String)
  | followUpChunk (text : String)
  | followUpSuccess (text : String)
  | followUpError (msg : String)
  | apiKeyInvalid
  | resetView
  | reset
  | viewChanged (v : View)
  deriving DecidableEq, Repr

/-! Section: Window interactivity (ipcHandlers.ts) -/

/-- The window properties that applyInteractivityState drives. -/
structure WindowFlags where
  ignoreMouseEvents : Bool
  focusable : Bool
  skipTaskbar : Bool
  deriving DecidableEq, Repr

/-- The externally visible interactivity axis of the spec. -/
inductive InteractivityMode
  | inert
  | interactive
  deriving DecidableEq, Repr

/-- Classification of a set of window flags: inert means mouse input is
ignored, the window is unfocusable and excluded from the taskbar. -/
def inertModeOf (w : WindowFlags) : InteractivityMode :=
  if w.ignoreMouseEvents && !w.focusable && w.skipTaskbar then
    InteractivityMode.inert
  else InteractivityMode.interactive

/-- The shouldBeInert condition of applyInteractivityState, setView and
setWindowDimensions: stealth mode or a response/followup view. -/
def shouldBeInert (mode : Mode) (view : View) : Bool :=
  decide (mode = Mode.stealth) || decide (view = View.response)
    || decide (view = View.followup)

/-- applyInteractivityState: reasserts the full inertness contract from the
current mode and view. The prior window flags are overwritten wholesale; the
repeated setSkipTaskbar/setFocusable calls of the source collapse to a single
assignment of each flag. The interactive branch also keeps the window out of
the taskbar (setSkipTaskbar true) and re-floats it. -/
def applyInteractivityState (mode : Mode) (view : View) (w : WindowFlags) :
    WindowFlags :=
  if shouldBeInert mode view then
    { ignoreMouseEvents := true, focusable := false, skipTaskbar := true }
  else
    { ignoreMouseEvents := false, focusable := true, skipTaskbar := true }

/-! Section: Orchestrator state (ProcessingHelper plus the ipcHandlers state) -/

/-- An AbortController: whether its signal is aborted, and whether one of
its abort listeners raises when abort is dispatched. -/
structure Controller where
  aborted : Bool
  listenerRaises : Bool
  deriving DecidableEq, Repr

/-- Combined main-process state for the processing pipeline: the
ScreenshotHelper, the view/mode/window flags, the locked response width, the
ProcessingHelper flags and abort controllers, the main-process response
history, and the log of events sent to the renderer. -/
structure PState where
  sh : SHState
  view : View
  mode : Mode
  flags : WindowFlags
  lockedResponseWidth : Option Nat
  isCurrentlyProcessing : Bool
  hasFollowedUp : Bool
  mainController : Option Controller
  extraController : Option Controller
  timeouts : List Nat
  previousResponse : Option String
  currentPrompt : Option String
  history : List String
  historyIndex : Int
  events : List Event
  deriving DecidableEq, Repr

/-- setView of ipcHandlers.ts: no-op when the view is unchanged; otherwise
updates state.view and the helper view, notifies the renderer, and reapplies
the full interactivity contract (immediately, on the next tick and after a
short delay; all three reassertions produce the same flags). -/
def setViewP (p : PState) (v : View) : PState :=
  if p.view = v then p
  else
    { p with view := v,
             sh := { p.sh with view := v },
             flags := applyInteractivityState p.mode v p.flags,
             events := p.events ++ [Event.viewChanged v] }

/-- setMode of ipcHandlers.ts: the requested mode argument is ignored and
the state mode is hardcoded to stealth, then the interactivity contract is
reapplied. -/
def setModeP (p : PState) (m : Mode) : PState :=
  let p1 := { p with mode := Mode.stealth }
  { p1 with flags := applyInteractivityState p1.mode p1.view p1.flags }

/-- saveResponseToHistory of ipcHandlers.ts: pushes a non-empty response
text onto the main-process history and points historyIndex at it. No bound
is applied. -/
def saveResponseToHistory (p : PState) (t : String) : PState :=
  if t = "" then p
  else { p with history := p.history ++ [t],
                historyIndex := (p.history.length : Int) }

/-- clearQueues of ipcHandlers.ts: clears both ScreenshotHelper queues
(deleting backing files), drops the locked response width and resets the
view to initial. -/
def clearQueuesP (p : PState) : PState :=
  let p1 := { p with sh := clearQueuesSH p.sh, lockedResponseWidth := none }
  setViewP p1 View.initial

/-! Section: Cancellation (ProcessingHelper) -/

/-- AbortController.abort: marks the signal aborted; if an abort listener
raises, the raised error is the second component. -/
def abortController (c : Controller) : Controller × Option String :=
  ({ c with aborted := true },
   if c.listenerRaises then some "abort listener raised" else none)

/-- safeAbortController: aborts a not-yet-aborted controller, swallowing any
error raised by abort listeners (the nested try/catch of the source). -/
def safeAbortController (c : Option Controller) : Option Controller :=
  match c with
  | none => none
  | some ctrl =>
      if ctrl.aborted then some ctrl
      else (abortController ctrl).1

/-- cancelOngoingRequests: aborts both controllers through
safeAbortController (errors swallowed), clears the controller references and
timeouts, resets the processing and follow-up flags, and sends RESET only if
some controller was actually cancelled. The second component is the error
escaping the call, if any. The view is never touched. -/
def cancelOngoingRequests (p : PState) : PState × Option String :=
  let wasCancelled :=
    (match p.mainController with
     | some c => !c.aborted
     | none => false) ||
    (match p.extraController with
     | some c => !c.aborted
     | none => false)
  let p1 := { p with
    mainController := none,
    extraController := none,
    timeouts := [],
    isCurrentlyProcessing := false,
    hasFollowedUp := false }
  let p2 := if wasCancelled then { p1 with events := p1.events ++ [Event.reset] }
            else p1
  (p2, none)

/-! Section: Provider stream and failure classification -/

/-- A provider/runtime error as the catch blocks observe it: message, name,
error code, HTTP status of the response, and response.data.error. -/
structure ProviderError where
  message : String
  name : Option String
  code : Option String
  status : Option Nat
  dataError : Option String
  deriving DecidableEq, Repr

/-- Terminal event of a provider stream: normal completion or an error
raised mid-stream (including an abort observed between chunks). -/
inductive StreamTerminal
  | done
  | fail (e : ProviderError)
  deriving DecidableEq, Repr

/-- Environment input for one streaming call: chunk texts delivered in
order, then the terminal event. -/
structure StreamScript where
  chunks : List String
  terminal : StreamTerminal
  deriving DecidableEq, Repr

/-- Whether the text starts with the pattern (on character lists). -/
def charsStartWith : List Char → List Char → Bool
  | [], _ => true
  | _ :: _, [] => false
  | a :: ps, b :: ss => decide (a = b) && charsStartWith ps ss

/-- Whether the pattern occurs in the text (on character lists). -/
def charsContain (text pat : List Char) : Bool :=
  match text with
  | [] => charsStartWith pat []
  | _ :: t => charsStartWith pat text || charsContain t pat

/-- Substring containment (the String.prototype.includes checks). -/
def containsSub (s pat : String) : Bool :=
  charsContain s.toList pat.toList

/-- Lowercasing (the String.prototype.toLowerCase calls). -/
def toLowerStr (s : String) : String :=
  String.mk (s.toList.map Char.toLower)

/-- Abort classification: error.message equals "Request aborted" or
error.name equals "AbortError". -/
def errIsAbort (e : ProviderError) : Bool :=
  decide (e.message = "Request aborted") || decide (e.name = some "AbortError")

/-- Network-timeout classification: error.code ETIMEDOUT or HTTP 504. -/
def errIsTimeout (e : ProviderError) : Bool :=
  decide (e.code = some "ETIMEDOUT") || decide (e.status = some 504)

/-- Invalid-API-key classification on response.data.error. -/
def errIsApiKeyData (e : ProviderError) : Bool :=
  match e.dataError with
  | some d =>
      containsSub d
        "Please close this window and re-enter a valid Open AI API key."
        || containsSub d "API key not found"
  | none => false

/-- API-key classification of a failure message in processScreenshots
(lowercased containment of "api key not found"). -/
def isApiKeyErrorMsg (msg : String) : Bool :=
  containsSub (toLowerStr msg) "api key not found"

/-- Rate-limit classification of a failure message in processScreenshots:
429, resource exhausted, or too many requests (lowercased). -/
def isRateLimitErrorMsg (msg : String) : Bool :=
  containsSub (toLowerStr msg) "429"
    || containsSub (toLowerStr msg) "resource exhausted"
    || containsSub (toLowerStr msg) "too many requests"

/-- Character class of the base64 body in the validation regex. -/
def isBase64Char (c : Char) : Bool :=
  c.isAlphanum || decide (c = '+') || decide (c = '/')

/-- The validation regex of the source (a base64 body followed by at most
two padding characters, anchored at both ends). -/
def matchesBase64Format (s : String) : Bool :=
  let cs := s.toList
  let core := cs.takeWhile isBase64Char
  let rest := cs.drop core.length
  rest.all (fun c => decide (c = '=')) && decide (rest.length ≤ 2)

/-- Screenshot payload validation: non-empty, well-formed base64, and at
least 100 characters long. -/
def validBase64 (data : String) : Bool :=
  !(decide (data = "")) && matchesBase64Format data
    && !(decide (data.length < 100))

/-- The chunk events sent while streaming: each chunk is appended to the
accumulated text and the accumulated text so far is sent to the renderer. -/
def chunkEventList (mk : String → Event) (acc : String) :
    List String → List Event
  | [] => []
  | c :: rest => mk (acc ++ c) :: chunkEventList mk (acc ++ c) rest

/-- The accumulated text after consuming a list of chunks. -/
def accumulate (acc : String) : List String → String
  | [] => acc
  | c :: rest => accumulate (acc ++ c) rest

/-- Message shown for a network-layer timeout of the stream. -/
def timeoutShownMsg : String :=
  "Request timed out. The server took too long to respond. Please try again."

/-- Error returned for a network-layer timeout of the stream. -/
def timeoutRetMsg : String := "Request timed out. Please try again."

/-- Error returned for invalid follow-up screenshot payloads. -/
def invalidScreenshotMsg : String :=
  "Screenshot data is invalid. Please try pressing Ctrl+Enter again to take a fresh screenshot."

/-- Result object of the generate/process helpers:
either with success true and data, or success false and error. -/
structure GenResult where
  success : Bool
  data : Option String
  error : Option String
  deriving DecidableEq, Repr

/-- generateResponseWithImages: streams the provider response, forwarding
each accumulated chunk to the renderer. On a mid-stream error after at least
one chunk was sent, the partial text is finalized as a success; otherwise the
error is classified as abort, network timeout (which cancels, clears both
queues and resets the view to initial before returning), invalid API key, or
generic (which resets the view to initial). The images argument carries the
validated base64 payloads composed into the request. -/
def generateResponseWithImages (p : PState) (images : List String)
    (script : StreamScript) : PState × GenResult :=
  let accumulatedText := accumulate "" script.chunks
  let chunksSent := decide (script.chunks ≠ [])
  let p1 := { p with events :=
    p.events ++ chunkEventList Event.responseChunk "" script.chunks }
  match script.terminal with
  | StreamTerminal.done =>
      let p2 := saveResponseToHistory p1 accumulatedText
      let p3 := { p2 with events :=
        p2.events ++ [Event.responseSuccess accumulatedText] }
      (p3, { success := true, data := some accumulatedText, error := none })
  | StreamTerminal.fail e =>
      if chunksSent then
        let p2 :=
          if accumulatedText = "" then p1
          else { p1 with events :=
            p1.events ++ [Event.responseSuccess accumulatedText] }
        (p2, { success := true, data := some accumulatedText, error := none })
      else if errIsAbort e then
        ({ p1 with events := p1.events ++
            [Event.initialResponseError "Response generation canceled."] },
         { success := false, data := none,
           error := some "Response generation canceled." })
      else if errIsTimeout e then
        let p2 := (cancelOngoingRequests p1).1
        let p3 := clearQueuesP p2
        let p4 := setViewP p3 View.initial
        let p5 := { p4 with events := p4.events ++
          [Event.resetView, Event.initialResponseError timeoutShownMsg] }
        (p5, { success := false, data := none, error := some timeoutRetMsg })
      else if errIsApiKeyData e then
        ({ p1 with events := p1.events ++ [Event.apiKeyInvalid] },
         { success := false, data := none, error := e.dataError })
      else
        let shownMsg :=
          if e.message = "" then
            "Server error during response generation. Please try again."
          else e.message
        let p2 := { p1 with events :=
          p1.events ++ [Event.initialResponseError shownMsg] }
        let p3 := setViewP p2 View.initial
        let retMsg :=
          if e.message = "" then "Unknown error during response generation"
          else e.message
        (p3, { success := false, data := none, error := some retMsg })

/-- processScreenshotsHelper: throws when the API key is missing (caught by
its own catch, which returns the failure), then calls
generateResponseWithImages; on success it clears the extra queue, stores the
previous response and notifies the renderer; on failure the thrown error is
returned as a failure result (MAX_RETRIES is 0, so there is one attempt). -/
def processScreenshotsHelper (p : PState) (images : List String)
    (script : StreamScript) (apiKey : Option String) : PState × GenResult :=
  match apiKey with
  | none =>
      (p, { success := false, data := none,
            error := some "API key not found. Please configure it in settings." })
  | some _ =>
      let r := generateResponseWithImages p images script
      if r.2.success then
        let d := r.2.data.getD ""
        let p2 := { r.1 with sh := clearExtraScreenshotQueueSH r.1.sh,
                             previousResponse := some d,
                             events := r.1.events ++ [Event.responseSuccess d] }
        (p2, r.2)
      else
        (r.1, { success := false, data := none,
                error := some (r.2.error.getD "Failed to generate response") })

/-- processExtraScreenshotsHelper: the follow-up streaming helper. Validates
the payloads, streams the follow-up response sending accumulated chunks; on
completion it saves the history and notifies success; a mid-stream error is
classified as abort, invalid data, network timeout (cancel and clear queues)
or generic — with no partial-result preservation. -/
def processExtraScreenshotsHelper (p : PState) (images : List String)
    (script : StreamScript) (apiKey : Option String) : PState × GenResult :=
  match apiKey with
  | none =>
      (p, { success := false, data := none,
            error := some "API key not found. Please configure it in settings." })
  | some _ =>
      let validImages := images.filter validBase64
      if validImages.length = 0 then
        (p, { success := false, data := none,
              error := some invalidScreenshotMsg })
      else
        let accumulatedText := accumulate "" script.chunks
        let p1 := { p with events :=
          p.events ++ chunkEventList Event.followUpChunk "" script.chunks }
        match script.terminal with
        | StreamTerminal.done =>
            let p2 := saveResponseToHistory p1 accumulatedText
            let p3 := { p2 with events :=
              p2.events ++ [Event.followUpSuccess accumulatedText] }
            (p3, { success := true, data := some accumulatedText, error := none })
        | StreamTerminal.fail e =>
            if errIsAbort e then
              (p1, { success := false, data := none,
                     error := some "Follow-up processing canceled." })
            else if containsSub e.message "No valid screenshot data"
                || containsSub e.message "Provided image is not valid" then
              (p1, { success := false, data := none,
                     error := some invalidScreenshotMsg })
            else if errIsTimeout e then
              let p2 := (cancelOngoingRequests p1).1
              let p3 := clearQueuesP p2
              (p3, { success := false, data := none,
                     error := some timeoutRetMsg })
            else
              (p1, { success := false, data := none,
                     error := some (if e.message = "" then
                       "Unknown error during follow-up processing"
                       else e.message) })

/-- Outcome of a start attempt: the guard skipped a duplicate call (the
already-processing failure of the spec) or the call ran to completion. -/
inductive StartOutcome
  | alreadyProcessing
  | completed
  deriving DecidableEq, Repr

/-- processScreenshots: the guard on the global isCurrentlyProcessing flag
skips duplicate calls without touching any state. In the initial view it
notifies start, reads and validates the queue payloads (readFile gives the
base64 content of a path), throws when none validate (caught by the outer
catch, which surfaces the error and resets the view), and otherwise runs
processScreenshotsHelper, classifying a failure as API-key (view reset to
initial), rate-limit (view kept at response) or generic (view reset to
initial). In the response/followup view it runs the follow-up helper. The
finally block resets the processing flag, the controller and the timeouts. -/
def processScreenshots (p : PState) (readFile : String → String)
    (script : StreamScript) (apiKey : Option String) : PState × StartOutcome :=
  if p.isCurrentlyProcessing then (p, StartOutcome.alreadyProcessing)
  else
    let p0 := { p with isCurrentlyProcessing := true }
    let fin := fun (q : PState) =>
      { q with isCurrentlyProcessing := false, timeouts := [] }
    if p0.view = View.initial then
      let p1 := { p0 with events := p0.events ++ [Event.initialStart],
                          mainController :=
                            some { aborted := false, listenerRaises := false },
                          timeouts := p0.timeouts ++ [120000] }
      let screenshotsData := p1.sh.screenshotQueue.map readFile
      let validData := screenshotsData.filter validBase64
      if validData.length = 0 then
        let msg := "No valid screenshot data available for processing"
        let pe := { p1 with
          mainController := none,
          events := p1.events ++ [Event.initialResponseError msg] }
        (fin (setViewP pe View.initial), StartOutcome.completed)
      else
        let r := processScreenshotsHelper p1 validData script apiKey
        let p2 := { r.1 with mainController := none }
        if r.2.success then
          let d := r.2.data.getD ""
          let p3 := saveResponseToHistory p2 d
          let p4 := { p3 with events := p3.events ++ [Event.responseSuccess d] }
          (fin (setViewP p4 View.response), StartOutcome.completed)
        else
          let errorMessage :=
            r.2.error.getD "Failed to generate response. Please try again."
          if isApiKeyErrorMsg errorMessage then
            let p3 := { p2 with events := p2.events ++
              [Event.initialResponseError
                "API key not found. Please set your API key in settings."] }
            (fin (setViewP p3 View.initial), StartOutcome.completed)
          else
            let p3 := { p2 with events := p2.events ++
              [Event.initialResponseError errorMessage] }
            let p4 := if isRateLimitErrorMsg errorMessage then
                        setViewP p3 View.response
                      else setViewP p3 View.initial
            (fin p4, StartOutcome.completed)
    else
      let p1 := { p0 with events := p0.events ++ [Event.followUpStart],
                          extraController :=
                            some { aborted := false, listenerRaises := false },
                          timeouts := p0.timeouts ++ [120000] }
      let images :=
        (p1.sh.screenshotQueue ++ p1.sh.extraScreenshotQueue).map readFile
      let r := processExtraScreenshotsHelper p1 images script apiKey
      let p2 := { r.1 with extraController := none }
      if r.2.success then
        let p3 := { p2 with hasFollowedUp := true,
                            events := p2.events ++
                              [Event.followUpSuccess (r.2.data.getD "")] }
        (fin p3, StartOutcome.completed)
      else
        let p3 := { p2 with events := p2.events ++
          [Event.followUpError (r.2.error.getD "")] }
        (fin p3, StartOutcome.completed)

/-- processFollowUp: same global guard as processScreenshots. Sets the view
to followup, notifies start, fails early when both queues are empty, then
runs the follow-up helper on the contents of both queues with the captured
user prompt; on success it notifies follow-up and response success, stores
the previous response and marks hasFollowedUp; on failure it notifies the
follow-up error. The finally block resets the processing flag. -/
def processFollowUp (p : PState) (readFile : String → String)
    (script : StreamScript) (apiKey : Option String) : PState × StartOutcome :=
  if p.isCurrentlyProcessing then (p, StartOutcome.alreadyProcessing)
  else
    let p0 := { p with isCurrentlyProcessing := true }
    let fin := fun (q : PState) => { q with isCurrentlyProcessing := false }
    let p1 := setViewP p0 View.followup
    let p2 := { p1 with events := p1.events ++ [Event.followUpStart] }
    if p2.sh.screenshotQueue.length = 0
        ∧ p2.sh.extraScreenshotQueue.length = 0 then
      (fin { p2 with events := p2.events ++
        [Event.followUpError "No screenshots available"] },
       StartOutcome.completed)
    else
      let p3 := if p2.currentPrompt.isSome then
                  { p2 with currentPrompt := none }
                else p2
      let images :=
        (p3.sh.screenshotQueue ++ p3.sh.extraScreenshotQueue).map readFile
      let r := processExtraScreenshotsHelper p3 images script apiKey
      if r.2.success ∧ r.2.data.isSome then
        let d := r.2.data.getD ""
        let p4 := { r.1 with
          previousResponse := some d,
          hasFollowedUp := true,
          events := r.1.events ++
            [Event.followUpSuccess d, Event.responseSuccess d] }
        (fin p4, StartOutcome.completed)
      else
        (fin { r.1 with events := r.1.events ++
          [Event.followUpError (r.2.error.getD "Follow-up processing failed")] },
         StartOutcome.completed)

/-! Section: Renderer response history (useResponseHistory hook) -/

/-- Kind tag of a renderer history entry. -/
inductive HKind
  | initial
  | followup
  deriving DecidableEq, Repr

/-- ResponseHistoryItem of the renderer hook. -/
structure ResponseHistoryItem where
  id : String
  response : String
  timestamp : Nat
  type : HKind
  screenshots : Option (List String)
  deriving DecidableEq, Repr

/-- addResponse of useResponseHistory: appends the new item and keeps only
the last 10 entries. -/
def addResponse (history : List ResponseHistoryItem)
    (item : ResponseHistoryItem) : List ResponseHistoryItem :=
  let newHistory := history ++ [item]
  if newHistory.length > 10 then newHistory.drop (newHistory.length - 10)
  else newHistory

/-- The last ten entries of a list (the slice with argument minus ten). -/
def lastTen (l : List ResponseHistoryItem) : List ResponseHistoryItem :=
  l.drop (l.length - 10)

/-! Section: Window geometry (setWindowDimensions of ipcHandlers.ts) -/

/-- The width argument of setWindowDimensions: the string "fixed" or a
numeric pixel width. -/
inductive WidthArg
  | fixed
  | px (n : Nat)
  deriving DecidableEq, Repr

/-- Work area of the primary display. -/
structure WorkArea where
  x : Int
  y : Int
  width : Nat
  height : Nat
  deriving DecidableEq, Repr

/-- Window bounds. -/
structure Bounds where
  x : Int
  y : Int
  width : Nat
  height : Nat
  deriving DecidableEq, Repr

/-- The module-level geometry state of ipcHandlers.ts. -/
structure GeoState where
  view : View
  mode : Mode
  lockedResponseWidth : Option Nat
  lastUpdateTime : Nat
  lastDimensions : Nat × Nat
  windowSize : Nat × Nat
  bounds : Bounds
  isUpdatingDimensions : Bool
  deriving DecidableEq, Repr

/-- Absolute difference of two naturals (Math.abs of the subtraction). -/
def natDiff (a b : Nat) : Nat := max a b - min a b

/-- The minimum spacing window of setWindowDimensions: 300ms for
fixed-width requests, 250ms otherwise. -/
def geoMinDelay : WidthArg → Nat
  | WidthArg.fixed => 300
  | WidthArg.px _ => 250

/-- The width-resolution step of setWindowDimensions: resolves the numeric
width and, before any delta check, clears the locked width when the view is
initial and establishes it (832) when the view is response/followup and it
was unset. Returns the updated state and the numeric width. -/
def geoWidthStep (s : GeoState) (width : WidthArg) : GeoState × Nat :=
  match width with
  | WidthArg.fixed =>
      match s.lockedResponseWidth with
      | some w =>
          if s.view = View.response ∨ s.view = View.followup then (s, w)
          else (s, s.bounds.width)
      | none => (s, s.bounds.width)
  | WidthArg.px n =>
      if s.view = View.initial then
        ({ s with lockedResponseWidth := none }, n)
      else if s.view = View.response ∨ s.view = View.followup then
        match s.lockedResponseWidth with
        | none => ({ s with lockedResponseWidth := some 832 }, 832)
        | some w => (s, w)
      else (s, n)

/-- The clamped final dimensions of setWindowDimensions: minimum size
300 by 120 (with a 15px height pad), maximum 90 percent of the work-area
width and 98 percent of its height. -/
def geoFinalDims (wa : WorkArea) (numericWidth : Nat) (height : Nat) :
    Nat × Nat :=
  let safeWidth := max numericWidth 300
  let safeHeight := max (height + 15) 120
  let maxWidth := wa.width * 9 / 10
  let maxHeight := wa.height * 98 / 100
  (min safeWidth maxWidth, min safeHeight maxHeight)

/-- setWindowDimensions: rate-limits updates (a call within the minimum
spacing window of the previous callback run returns unchanged), skips when
an update is mid-flight, then runs the update callback: width resolution
(which may touch the locked width), the small-delta anti-jitter skip, the
fixed-width tooltip height filtering, and finally the clamped bounds
application. The interactivity reassertions around the bounds change are
modelled with the window-flag functions above. -/
def setWindowDimensions (wa : WorkArea) (s : GeoState) (width : WidthArg)
    (height : Nat) (now : Nat) : GeoState :=
  if now - s.lastUpdateTime < geoMinDelay width then s
  else if s.isUpdatingDimensions then s
  else
    let s1 := { s with isUpdatingDimensions := true, lastUpdateTime := now }
    let r := geoWidthStep s1 width
    let s2 := r.1
    let dims := geoFinalDims wa r.2 height
    let finalWidth := dims.1
    let finalHeight := dims.2
    let widthDiff := natDiff finalWidth s2.lastDimensions.1
    let heightDiff := natDiff finalHeight s2.lastDimensions.2
    if widthDiff < 25 ∧ heightDiff < 30 ∧ 0 < s2.lastDimensions.1 then
      { s2 with isUpdatingDimensions := false }
    else
      let blockedFixed :=
        match width with
        | WidthArg.fixed =>
            if finalHeight > s2.bounds.height then false
            else if heightDiff < 50 then true
            else if s2.bounds.height ≥ 400 ∧ finalHeight < s2.bounds.height then
              true
            else false
        | WidthArg.px _ => false
      if blockedFixed then { s2 with isUpdatingDimensions := false }
      else
        let nx1 := if s2.bounds.x < wa.x then wa.x else s2.bounds.x
        let ny1 := if s2.bounds.y < wa.y then wa.y else s2.bounds.y
        let nx2 := if nx1 + (finalWidth : Int) > wa.x + (wa.width : Int) then
                     wa.x + (wa.width : Int) - (finalWidth : Int)
                   else nx1
        let ny2 := if ny1 + (finalHeight : Int) > wa.y + (wa.height : Int) then
                     wa.y + (wa.height : Int) - (finalHeight : Int)
                   else ny1
        { s2 with
            bounds := { x := nx2, y := ny2,
                        width := finalWidth, height := finalHeight },
            windowSize := (finalWidth, finalHeight),
            lastDimensions := (finalWidth, finalHeight),
            isUpdatingDimensions := false }

/-! Section: Concrete base states used by witnesses and counterexamples -/

/-- Fresh main-process state: initial view, stealth mode, nothing pending. -/
def pInit : PState :=
  { sh := shInit,
    view := View.initial,
    mode := Mode.stealth,
    flags := { ignoreMouseEvents := false, focusable := true,
               skipTaskbar := true },
    lockedResponseWidth := none,
    isCurrentlyProcessing := false,
    hasFollowedUp := false,
    mainController := none,
    extraController := none,
    timeouts := [],
    previousResponse := none,
    currentPrompt := none,
    history := [],
    historyIndex := -1,
    events := [] }

/-- Concrete valid base64 payload used by witnesses. -/
def validStr : String := String.mk (List.replicate 100 'A')

/-- Concrete response-view state with one queued screenshot, used by
witnesses and counterexamples. -/
def pResp : PState :=
  { pInit with
      view := View.response,
      sh := { shInit with screenshotQueue := ["s1.png"],
                          files := ["s1.png"], view := View.response } }

/-- Concrete idle state with one queued screenshot, used by witnesses. -/
def pIdleQueued : PState :=
  { pInit with
      sh := { shInit with screenshotQueue := ["s1.png"], files := ["s1.png"] } }

/-- Standard work area used by geometry witnesses. -/
def waStd : WorkArea := { x := 0, y := 0, width := 1920, height := 1080 }

/-- Concrete response-view geometry state: locked width not yet
established, last applied dimensions 832 by 500. -/
def geoResp : GeoState :=
  { view := View.response, mode := Mode.stealth,
    lockedResponseWidth := none, lastUpdateTime := 0,
    lastDimensions := (832, 500), windowSize := (832, 500),
    bounds := { x := 100, y := 100, width := 832, height := 500 },
    isUpdatingDimensions := false }

/-! Section: Helper lemmas -/

theorem safeUnlinkFile_of_not_mem (files : List String) (p : String)
    (h : p ∉ files) : safeUnlinkFile files p = files := by
  unfold safeUnlinkFile
  apply List.filter_eq_self.mpr
  intro a ha
  simp only [decide_eq_true_eq]
  intro hap
  subst hap
  exact h ha

theorem not_mem_safeUnlink_self (files : List String) (q : String) :
    q ∉ safeUnlinkFile files q := by
  intro hm
  have h := List.of_mem_filter hm
  simp at h

theorem not_mem_safeUnlink (files : List String) (a q : String)
    (h : q ∉ files) : q ∉ safeUnlinkFile files a :=
  fun hm => h (List.mem_of_mem_filter hm)

theorem not_mem_foldl_safeUnlink (l : List String) (files : List String)
    (q : String) (h : q ∉ files) : q ∉ l.foldl safeUnlinkFile files := by
  induction l generalizing files with
  | nil => exact h
  | cons a t ih => exact ih (safeUnlinkFile files a) (not_mem_safeUnlink files a q h)

theorem not_mem_foldl_safeUnlink_of_mem (l : List String) (files : List String)
    (q : String) (h : q ∈ l) : q ∉ l.foldl safeUnlinkFile files := by
  induction l generalizing files with
  | nil => cases h
  | cons a t ih =>
      rcases List.mem_cons.mp h with rfl | hq
      · simp only [List.foldl_cons]
        exact not_mem_foldl_safeUnlink t (safeUnlinkFile files q) q
          (not_mem_safeUnlink_self files q)
      · exact ih (safeUnlinkFile files a) hq

theorem addOp_inv (b : Bool) (s : SHState) (p : String)
    (hInv : QueueInv b s) (hp : p ∉ s.files) :
    QueueInv b (addOp s p b) ∧ queueOf (addOp s p b) b = [p]
    ∧ (addOp s p b).files = [p] := by
  obtain ⟨hflag, hlen, hfiles, hother⟩ := hInv
  obtain ⟨mq, eq2, ipq, ics, v, fl⟩ := s
  subst hflag
  cases b with
  | false =>
      simp only [queueOf, Bool.not_false] at hlen hfiles hother ⊢
      subst hother
      cases mq with
      | nil =>
          subst hfiles
          simp [addOp, addToQueue, cleanupOldScreenshots, fsWrite, QueueInv,
            queueOf, MAX_SCREENSHOTS]
      | cons q0 tail =>
          have htail : tail = [] := by
            simp only [List.length_cons] at hlen
            exact List.eq_nil_of_length_eq_zero (by omega)
          subst htail
          subst hfiles
          have hpq0 : ¬(p = q0) := by
            intro hpe
            apply hp
            simp [hpe]
          simp [addOp, addToQueue, cleanupOldScreenshots, fsWrite, QueueInv,
            queueOf, MAX_SCREENSHOTS, safeUnlinkFile, hpq0, hp]
  | true =>
      simp only [queueOf, Bool.not_true] at hlen hfiles hother ⊢
      subst hother
      cases eq2 with
      | nil =>
          subst hfiles
          simp [addOp, addToQueue, cleanupOldScreenshots, fsWrite, QueueInv,
            queueOf, MAX_SCREENSHOTS]
      | cons q0 tail =>
          have htail : tail = [] := by
            simp only [List.length_cons] at hlen
            exact List.eq_nil_of_length_eq_zero (by omega)
          subst htail
          subst hfiles
          have hpq0 : ¬(p = q0) := by
            intro hpe
            apply hp
            simp [hpe]
          simp [addOp, addToQueue, cleanupOldScreenshots, fsWrite, QueueInv,
            queueOf, MAX_SCREENSHOTS, safeUnlinkFile, hpq0, hp]

theorem runAdds_inv (b : Bool) (ps : List String) :
    ∀ s, QueueInv b s → ps.Nodup → (∀ q ∈ ps, q ∉ s.files) →
      QueueInv b (runAdds s b ps) := by
  induction ps with
  | nil => intro s h _ _; exact h
  | cons p rest ih =>
      intro s h hnd hfresh
      have hstep := addOp_inv b s p h (hfresh p (List.mem_cons_self p rest))
      have hrw : runAdds s b (p :: rest) = runAdds (addOp s p b) b rest := rfl
      rw [hrw]
      refine ih (addOp s p b) hstep.1 hnd.of_cons ?_
      intro q hq
      rw [hstep.2.2]
      simp only [List.mem_singleton]
      intro hqp
      subst hqp
      exact (List.nodup_cons.mp hnd).1 hq

/-! Section: Claim theorems -/

/-- C1: for every sequence of add operations on a capture queue of either
kind, after each add the queue length is at most 1 and every evicted item
has its backing file deleted (the live files are never more than the queued
paths); after five consecutive adds to the capacity-1 queue the queue holds
exactly the last added item and only its file is live (the four earlier
files are deleted). -/
theorem c1_queue_bound (b : Bool) (ps : List String) (hnd : ps.Nodup) :
    (∀ n, (queueOf (runAdds shInit b (ps.take n)) b).length ≤ 1
       ∧ ∀ q ∈ ps.take n, q ∉ queueOf (runAdds shInit b (ps.take n)) b →
           q ∉ (runAdds shInit b (ps.take n)).files)
    ∧ queueOf (runAdds shInit false
        ["a.png", "b.png", "c.png", "d.png", "e.png"]) false = ["e.png"]
    ∧ (runAdds shInit false
        ["a.png", "b.png", "c.png", "d.png", "e.png"]).files = ["e.png"] := by
  refine ⟨?_, by decide, by decide⟩
  intro n
  have hInv0 : QueueInv b shInit := by
    refine ⟨rfl, ?_, ?_, ?_⟩ <;> cases b <;> simp [queueOf, shInit]
  have hnd2 : (ps.take n).Nodup := (List.take_sublist n ps).nodup hnd
  have h := runAdds_inv b (ps.take n) shInit hInv0 hnd2
    (by intro q _; simp [shInit])
  refine ⟨h.2.1, ?_⟩
  intro q _ hqn
  rw [h.2.2.1]
  exact hqn

/-- Witness for C1 at the five-add scenario. -/
theorem c1_queue_bound_witness :
    (["a.png", "b.png", "c.png", "d.png", "e.png"] : List String).Nodup
    ∧ (queueOf (runAdds shInit false
        ((["a.png", "b.png", "c.png", "d.png", "e.png"] : List String).take 5))
        false).length ≤ 1 :=
  ⟨by decide,
   ((c1_queue_bound false ["a.png", "b.png", "c.png", "d.png", "e.png"]
      (by decide)).1 5).1⟩

/-- C10: if the capture writes its screenshot file but the enqueue fails
because the queue is busy, the just-written file is deleted before the
error propagates: the call returns the queue-busy error with the state
exactly as before the capture (no orphaned file, queues unchanged). -/
theorem c10_orphan_cleanup (s : SHState) (newPath : String)
    (h1 : s.isCapturingScreenshot = false)
    (h2 : s.isProcessingQueue = true)
    (h3 : newPath ∉ s.files) :
    takeScreenshot s newPath = (s, Except.error SHError.queueBusy) := by
  obtain ⟨mq, eq2, ipq, ics, v, fl⟩ := s
  simp only at h1 h2 h3
  subst h1
  subst h2
  unfold takeScreenshot addToQueue
  have hwrite : fsWrite fl newPath = fl ++ [newPath] := by
    unfold fsWrite
    rw [if_neg h3]
  simp only [hwrite]
  have hunl : safeUnlinkFile (fl ++ [newPath]) newPath = fl := by
    unfold safeUnlinkFile
    rw [List.filter_append]
    rw [show (fl.filter fun q => decide (q ≠ newPath)) = fl from
      safeUnlinkFile_of_not_mem fl newPath h3]
    simp
  simp [hunl]

/-- Witness for C10: a busy queue with one queued item; the failed capture
deletes its file and leaves the queue untouched. -/
theorem c10_orphan_cleanup_witness :
    takeScreenshot
        { screenshotQueue := ["q0.png"], extraScreenshotQueue := [],
          isProcessingQueue := true, isCapturingScreenshot := false,
          view := View.initial, files := ["q0.png"] } "new.png"
      = ({ screenshotQueue := ["q0.png"], extraScreenshotQueue := [],
           isProcessingQueue := true, isCapturingScreenshot := false,
           view := View.initial, files := ["q0.png"] },
         Except.error SHError.queueBusy) :=
  c10_orphan_cleanup _ "new.png" rfl rfl (by decide)

/-- C3: the already-processing guard is one global flag shared by both
request kinds: while it is set, starting either an initial request
(processScreenshots) or a follow-up request (processFollowUp) skips
immediately with the already-processing outcome and leaves the whole state
untouched — in particular the in-flight request's accumulated stream buffer
and event log are not modified. -/
theorem c3_at_most_one_processing (p : PState) (readFile : String → String)
    (sc1 sc2 : StreamScript) (k1 k2 : Option String)
    (h : p.isCurrentlyProcessing = true) :
    processScreenshots p readFile sc1 k1 = (p, StartOutcome.alreadyProcessing)
    ∧ processFollowUp p readFile sc2 k2
        = (p, StartOutcome.alreadyProcessing) := by
  constructor
  · unfold processScreenshots
    rw [if_pos h]
  · unfold processFollowUp
    rw [if_pos h]

/-- Witness for C3 at a concrete in-flight state. -/
theorem c3_at_most_one_processing_witness :
    processScreenshots { pInit with isCurrentlyProcessing := true }
        (fun _ => validStr) { chunks := [], terminal := StreamTerminal.done }
        (some "k")
      = ({ pInit with isCurrentlyProcessing := true },
         StartOutcome.alreadyProcessing) :=
  (c3_at_most_one_processing { pInit with isCurrentlyProcessing := true }
    (fun _ => validStr) { chunks := [], terminal := StreamTerminal.done }
    { chunks := [], terminal := StreamTerminal.done } (some "k") (some "k")
    rfl).1

theorem cancel_of_inactive (q : PState)
    (hm : q.mainController = none) (he : q.extraController = none)
    (ht : q.timeouts = []) (hp : q.isCurrentlyProcessing = false)
    (hh : q.hasFollowedUp = false) :
    cancelOngoingRequests q = (q, none) := by
  obtain ⟨sh, v, m, fl, lw, icp, hf, mc, ec, ts, pr, cp, hi, hx, ev⟩ := q
  have hm2 : mc = none := hm
  have he2 : ec = none := he
  have ht2 : ts = [] := ht
  have hp2 : icp = false := hp
  have hh2 : hf = false := hh
  subst hm2
  subst he2
  subst ht2
  subst hp2
  subst hh2
  rfl

theorem cancel_resets (p : PState) :
    (cancelOngoingRequests p).1.mainController = none
    ∧ (cancelOngoingRequests p).1.extraController = none
    ∧ (cancelOngoingRequests p).1.timeouts = []
    ∧ (cancelOngoingRequests p).1.isCurrentlyProcessing = false
    ∧ (cancelOngoingRequests p).1.hasFollowedUp = false := by
  unfold cancelOngoingRequests
  dsimp only
  refine ⟨?_, ?_, ?_, ?_, ?_⟩ <;> (split <;> rfl)

/-- C4: cancellation is idempotent and total: cancelOngoingRequests never
lets an error escape (even when an abort listener raises, the error is
swallowed inside safeAbortController), calling it again after it ran is a
no-op, it never changes the view or window flags, and when no request is
active it emits no event. -/
theorem c4_idempotent_cancel (p : PState) :
    (cancelOngoingRequests p).2 = none
    ∧ cancelOngoingRequests (cancelOngoingRequests p).1
        = ((cancelOngoingRequests p).1, none)
    ∧ (cancelOngoingRequests p).1.view = p.view
    ∧ (cancelOngoingRequests p).1.flags = p.flags
    ∧ (p.mainController = none → p.extraController = none →
        (cancelOngoingRequests p).1.events = p.events)
    ∧ (∀ c : Controller, c.aborted = false →
        safeAbortController (some c) = some { c with aborted := true }) := by
  have hr := cancel_resets p
  refine ⟨rfl, ?_, ?_, ?_, ?_, ?_⟩
  · exact cancel_of_inactive _ hr.1 hr.2.1 hr.2.2.1 hr.2.2.2.1 hr.2.2.2.2
  · unfold cancelOngoingRequests
    dsimp only
    split <;> rfl
  · unfold cancelOngoingRequests
    dsimp only
    split <;> rfl
  · intro hm he
    unfold cancelOngoingRequests
    rw [hm, he]
    rfl
  · intro c hc
    simp [safeAbortController, abortController, hc]

/-- Witness for C4 at the idle state. -/
theorem c4_idempotent_cancel_witness :
    (cancelOngoingRequests pInit).2 = none
    ∧ (pInit.mainController = none → pInit.extraController = none →
        (cancelOngoingRequests pInit).1.events = pInit.events) :=
  ⟨(c4_idempotent_cancel pInit).1, (c4_idempotent_cancel pInit).2.2.2.2.1⟩

/-- C6: the interactivity state is a pure function of the view and the
stealth flag: applyInteractivityState ignores the prior window flags, the
resulting mode is inert exactly when the view is not initial or the mode is
stealth (and inert windows are excluded from the taskbar), and both view
transitions (setView) and mode transitions (setMode) re-establish this
relation. -/
theorem c6_interactivity_pure_function (p : PState) (v : View) (m : Mode)
    (w1 w2 : WindowFlags) :
    applyInteractivityState p.mode p.view w1
      = applyInteractivityState p.mode p.view w2
    ∧ inertModeOf (applyInteractivityState p.mode p.view w1)
        = (if p.view ≠ View.initial ∨ p.mode = Mode.stealth then
            InteractivityMode.inert else InteractivityMode.interactive)
    ∧ (applyInteractivityState p.mode p.view w1).skipTaskbar = true
    ∧ (p.view ≠ v →
        inertModeOf (setViewP p v).flags
          = (if v ≠ View.initial ∨ p.mode = Mode.stealth then
              InteractivityMode.inert else InteractivityMode.interactive))
    ∧ inertModeOf (setModeP p m).flags
        = (if (setModeP p m).view ≠ View.initial
              ∨ (setModeP p m).mode = Mode.stealth then
            InteractivityMode.inert else InteractivityMode.interactive) := by
  obtain ⟨sh, pv, pm, fl, lw, icp, hf, mc, ec, ts, pr, cp, hi, hx, ev⟩ := p
  refine ⟨?_, ?_, ?_, ?_, ?_⟩
  · cases pv <;> cases pm <;>
      simp [applyInteractivityState, shouldBeInert]
  · cases pv <;> cases pm <;>
      simp [applyInteractivityState, shouldBeInert, inertModeOf]
  · cases pv <;> cases pm <;>
      simp [applyInteractivityState, shouldBeInert]
  · intro hne
    cases pv <;> cases pm <;> cases v <;>
      simp_all [setViewP, applyInteractivityState, shouldBeInert, inertModeOf]
  · cases pv <;> cases pm <;>
      simp [setModeP, applyInteractivityState, shouldBeInert, inertModeOf]

/-- Witness for C6 at a concrete transition out of the initial view. -/
theorem c6_interactivity_pure_function_witness :
    pInit.view ≠ View.response
    ∧ inertModeOf (setViewP pInit View.response).flags
        = (if View.response ≠ View.initial ∨ pInit.mode = Mode.stealth then
            InteractivityMode.inert else InteractivityMode.interactive) :=
  ⟨by decide,
   (c6_interactivity_pure_function pInit View.response Mode.stealth
      pInit.flags pInit.flags).2.2.2.1 (by decide)⟩

/-- C7 counterexample: the main-process history that stream completion
writes to (saveResponseToHistory) is unbounded: after eleven saved
responses its length is eleven, exceeding the bound of ten that the claim
asserts for the response history. -/
theorem c7_bounded_history_refuted :
    10 < (((List.replicate 11 "resp").foldl saveResponseToHistory
      pInit).history).length := by decide

theorem addResponse_eq_lastTen (h : List ResponseHistoryItem)
    (x : ResponseHistoryItem) : addResponse h x = lastTen (h ++ [x]) := by
  unfold addResponse lastTen
  by_cases hlen : (h ++ [x]).length > 10
  · rw [if_pos hlen]
  · rw [if_neg hlen]
    have h0 : (h ++ [x]).length - 10 = 0 := by omega
    rw [h0, List.drop_zero]

theorem lastTen_append_lastTen (A xs : List ResponseHistoryItem) :
    lastTen (lastTen A ++ xs) = lastTen (A ++ xs) := by
  unfold lastTen
  rw [← List.drop_append_of_le_length (Nat.sub_le A.length 10)]
  rw [List.drop_drop, List.length_drop, List.length_append]
  congr 1
  omega

theorem foldl_addResponse_lastTen (xs : List ResponseHistoryItem) :
    ∀ A, xs.foldl addResponse (lastTen A) = lastTen (A ++ xs) := by
  induction xs with
  | nil => intro A; rw [List.foldl_nil, List.append_nil]
  | cons x t ih =>
      intro A
      rw [List.foldl_cons, addResponse_eq_lastTen, lastTen_append_lastTen,
        ih (A ++ [x]), List.append_assoc, List.singleton_append]

/-- C7 amended: the main-process history written by stream completion is
unbounded (each save of a non-empty response appends one entry), while the
renderer-side response history (addResponse) is bounded: after any sequence
of adds it holds at most 10 entries, and exactly the most recent 10 in
order. -/
theorem c7_bounded_history_amended (items : List ResponseHistoryItem) :
    (items.foldl addResponse []).length ≤ 10
    ∧ items.foldl addResponse [] = lastTen items
    ∧ (∀ (p : PState) (t : String), t ≠ "" →
        (saveResponseToHistory p t).history = p.history ++ [t]) := by
  have hnil : (lastTen [] : List ResponseHistoryItem) = [] := rfl
  have hmain : items.foldl addResponse [] = lastTen items := by
    have h := foldl_addResponse_lastTen items []
    rw [hnil] at h
    rw [h, List.nil_append]
  refine ⟨?_, hmain, ?_⟩
  · rw [hmain]
    unfold lastTen
    rw [List.length_drop]
    omega
  · intro p t ht
    unfold saveResponseToHistory
    rw [if_neg ht]

/-- Witness for C7 amended at a concrete sequence of twelve adds. -/
theorem c7_bounded_history_amended_witness :
    ((List.range 12).map (fun i =>
      ({ id := toString i, response := toString i, timestamp := i,
         type := HKind.initial, screenshots := none } : ResponseHistoryItem))
      |>.foldl addResponse []).length ≤ 10
    ∧ ("r" : String) ≠ ""
    ∧ (saveResponseToHistory pInit "r").history = pInit.history ++ ["r"] := by
  refine ⟨(c7_bounded_history_amended _).1, by decide, ?_⟩
  exact (c7_bounded_history_amended []).2.2 pInit "r" (by decide)

theorem initialResponseError_not_mem_chunkEventList (cs : List String)
    (m : String) : ∀ acc,
    Event.initialResponseError m ∉ chunkEventList Event.responseChunk acc cs := by
  induction cs with
  | nil => intro acc; simp [chunkEventList]
  | cons c t ih =>
      intro acc
      simp only [chunkEventList, List.mem_cons]
      rintro (h | h)
      · cases h
      · exact ih (acc ++ c) h

theorem gen_partial_success (p : PState) (images : List String)
    (e : ProviderError) (chunks : List String) (hchunks : chunks ≠ []) :
    generateResponseWithImages p images
        { chunks := chunks, terminal := StreamTerminal.fail e }
      = ({ p with events :=
            (p.events ++ chunkEventList Event.responseChunk "" chunks)
            ++ (if accumulate "" chunks = "" then []
                else [Event.responseSuccess (accumulate "" chunks)]) },
         { success := true, data := some (accumulate "" chunks),
           error := none }) := by
  unfold generateResponseWithImages
  by_cases hacc : accumulate "" chunks = "" <;>
    simp [hchunks, hacc]

theorem saveResponseToHistory_events (p : PState) (t : String) :
    (saveResponseToHistory p t).events = p.events := by
  unfold saveResponseToHistory
  split <;> rfl

theorem saveResponseToHistory_view (p : PState) (t : String) :
    (saveResponseToHistory p t).view = p.view := by
  unfold saveResponseToHistory
  split <;> rfl

theorem saveResponseToHistory_previousResponse (p : PState) (t : String) :
    (saveResponseToHistory p t).previousResponse = p.previousResponse := by
  unfold saveResponseToHistory
  split <;> rfl

theorem setViewP_view (p : PState) (v : View) : (setViewP p v).view = v := by
  unfold setViewP
  split
  · next h => exact h
  · rfl

theorem setViewP_previousResponse (p : PState) (v : View) :
    (setViewP p v).previousResponse = p.previousResponse := by
  unfold setViewP
  split <;> rfl

theorem setViewP_events_of_ne (p : PState) (v : View) (h : p.view ≠ v) :
    (setViewP p v).events = p.events ++ [Event.viewChanged v] := by
  unfold setViewP
  rw [if_neg h]

/-- C2 counterexample: a follow-up request in which two chunks were
delivered before a generic terminal provider error is treated as a failure:
the renderer receives a follow-up error and no success event carrying the
accumulated partial text — refuting the claim for requests of the FollowUp
kind. -/
theorem c2_partial_preservation_refuted :
    (Event.followUpChunk "Hel" ∈
      (processFollowUp pResp (fun _ => validStr)
        { chunks := ["Hel", "lo"],
          terminal := StreamTerminal.fail
            { message := "boom", name := none, code := none, status := none,
              dataError := none } } (some "key")).1.events)
    ∧ (Event.followUpChunk "Hello" ∈
      (processFollowUp pResp (fun _ => validStr)
        { chunks := ["Hel", "lo"],
          terminal := StreamTerminal.fail
            { message := "boom", name := none, code := none, status := none,
              dataError := none } } (some "key")).1.events)
    ∧ (Event.followUpError "boom" ∈
      (processFollowUp pResp (fun _ => validStr)
        { chunks := ["Hel", "lo"],
          terminal := StreamTerminal.fail
            { message := "boom", name := none, code := none, status := none,
              dataError := none } } (some "key")).1.events)
    ∧ (Event.followUpSuccess "Hello" ∉
      (processFollowUp pResp (fun _ => validStr)
        { chunks := ["Hel", "lo"],
          terminal := StreamTerminal.fail
            { message := "boom", name := none, code := none, status := none,
              dataError := none } } (some "key")).1.events)
    ∧ (Event.responseSuccess "Hello" ∉
      (processFollowUp pResp (fun _ => validStr)
        { chunks := ["Hel", "lo"],
          terminal := StreamTerminal.fail
            { message := "boom", name := none, code := none, status := none,
              dataError := none } } (some "key")).1.events) := by decide

/-- C2 amended: for every Initial-kind request in which at least one chunk
was delivered before the provider stream raised a terminal error, the
request is not treated as a failure: generateResponseWithImages returns
success with the accumulated text of the delivered chunks, the view moves to
response, the accumulated text becomes the previous response, the renderer
receives a success event with that text, and no error event is added by the
call (follow-up requests do not preserve partial results; see the
counterexample). -/
theorem c2_partial_preservation_initial (p : PState)
    (readFile : String → String) (e : ProviderError) (chunks : List String)
    (key : String)
    (hproc : p.isCurrentlyProcessing = false)
    (hview : p.view = View.initial)
    (hvalid : ((p.sh.screenshotQueue.map readFile).filter validBase64).length ≠ 0)
    (hchunks : chunks ≠ []) :
    (∀ images, (generateResponseWithImages p images
        { chunks := chunks, terminal := StreamTerminal.fail e }).2
      = { success := true, data := some (accumulate "" chunks), error := none })
    ∧ (processScreenshots p readFile
        { chunks := chunks, terminal := StreamTerminal.fail e } (some key)).2
      = StartOutcome.completed
    ∧ (processScreenshots p readFile
        { chunks := chunks, terminal := StreamTerminal.fail e } (some key)).1.view
      = View.response
    ∧ (processScreenshots p readFile
        { chunks := chunks, terminal := StreamTerminal.fail e }
        (some key)).1.previousResponse = some (accumulate "" chunks)
    ∧ Event.responseSuccess (accumulate "" chunks) ∈
        (processScreenshots p readFile
          { chunks := chunks, terminal := StreamTerminal.fail e }
          (some key)).1.events
    ∧ (∀ m, Event.initialResponseError m ∈
        (processScreenshots p readFile
          { chunks := chunks, terminal := StreamTerminal.fail e }
          (some key)).1.events →
        Event.initialResponseError m ∈ p.events) := by
  have hgen : ∀ images, (generateResponseWithImages p images
      { chunks := chunks, terminal := StreamTerminal.fail e }).2
      = { success := true, data := some (accumulate "" chunks),
          error := none } := by
    intro images
    simp [generateResponseWithImages, hchunks]
  refine ⟨hgen, ?_⟩
  unfold processScreenshots processScreenshotsHelper
  simp only [gen_partial_success _ _ e chunks hchunks]
  by_cases hacc : accumulate "" chunks = "" <;>
    simp [hproc, hview, hvalid, setViewP, saveResponseToHistory,
      clearExtraScreenshotQueueSH, hacc] <;>
  · intro m hm
    rcases hm with hm | hm
    · exact hm
    · exact absurd hm (initialResponseError_not_mem_chunkEventList chunks m "")

theorem gen_generic_failure (p : PState) (images : List String)
    (e : ProviderError) (ha : errIsAbort e = false) (ht : errIsTimeout e = false)
    (hk : errIsApiKeyData e = false) (hm : e.message ≠ "")
    (hview : p.view = View.initial) :
    generateResponseWithImages p images
        { chunks := [], terminal := StreamTerminal.fail e }
      = ({ p with events := p.events ++ [Event.initialResponseError e.message] },
         { success := false, data := none, error := some e.message }) := by
  unfold generateResponseWithImages
  simp [ha, ht, hk, hm, hview, setViewP, chunkEventList, accumulate]

/-- C5: a request failing with a rate-limit-classified error (429, resource
exhausted or too many requests — and not classified as an API-key error)
surfaces the error to the renderer but keeps the view at response instead of
resetting it to initial, so the user can retry without recapturing; a
generic failure with no chunks delivered resets the view to initial. -/
theorem c5_rate_limit_retains_view (p : PState) (readFile : String → String)
    (e1 e2 : ProviderError) (key : String)
    (hproc : p.isCurrentlyProcessing = false)
    (hview : p.view = View.initial)
    (hvalid : ((p.sh.screenshotQueue.map readFile).filter validBase64).length ≠ 0)
    (h1a : errIsAbort e1 = false) (h1t : errIsTimeout e1 = false)
    (h1k : errIsApiKeyData e1 = false) (h1m : e1.message ≠ "")
    (h1r : isRateLimitErrorMsg e1.message = true)
    (h1nk : isApiKeyErrorMsg e1.message = false)
    (h2a : errIsAbort e2 = false) (h2t : errIsTimeout e2 = false)
    (h2k : errIsApiKeyData e2 = false) (h2m : e2.message ≠ "")
    (h2r : isRateLimitErrorMsg e2.message = false)
    (h2nk : isApiKeyErrorMsg e2.message = false) :
    ((processScreenshots p readFile
        { chunks := [], terminal := StreamTerminal.fail e1 } (some key)).1.view
      = View.response)
    ∧ Event.initialResponseError e1.message ∈
        (processScreenshots p readFile
          { chunks := [], terminal := StreamTerminal.fail e1 }
          (some key)).1.events
    ∧ ((processScreenshots p readFile
        { chunks := [], terminal := StreamTerminal.fail e2 } (some key)).1.view
      = View.initial) := by
  unfold processScreenshots processScreenshotsHelper
  simp [gen_generic_failure, hproc, hview, hvalid, h1a, h1t, h1k, h1m, h1r,
    h1nk, h2a, h2t, h2k, h2m, h2r, h2nk, setViewP]

theorem cancel_sh (p : PState) : (cancelOngoingRequests p).1.sh = p.sh := by
  unfold cancelOngoingRequests
  dsimp only
  split <;> rfl

theorem cancel_view2 (p : PState) :
    (cancelOngoingRequests p).1.view = p.view := by
  unfold cancelOngoingRequests
  dsimp only
  split <;> rfl

theorem cancel_locked (p : PState) :
    (cancelOngoingRequests p).1.lockedResponseWidth = p.lockedResponseWidth := by
  unfold cancelOngoingRequests
  dsimp only
  split <;> rfl

theorem setViewP_sh_screenshotQueue (p : PState) (v : View) :
    (setViewP p v).sh.screenshotQueue = p.sh.screenshotQueue := by
  unfold setViewP
  split <;> rfl

theorem setViewP_sh_extraScreenshotQueue (p : PState) (v : View) :
    (setViewP p v).sh.extraScreenshotQueue = p.sh.extraScreenshotQueue := by
  unfold setViewP
  split <;> rfl

theorem setViewP_sh_files (p : PState) (v : View) :
    (setViewP p v).sh.files = p.sh.files := by
  unfold setViewP
  split <;> rfl

/-- C8: a request failing with a network-layer timeout (ETIMEDOUT or HTTP
504, not classified as an abort) with no chunks delivered has both capture
queues cleared — their items removed and every backing file deleted — and
the view reset to initial, all in the state paired with the returned failure
result. -/
theorem c8_network_timeout_clears (p : PState) (images : List String)
    (e : ProviderError)
    (ha : errIsAbort e = false) (ht : errIsTimeout e = true) :
    ((generateResponseWithImages p images
        { chunks := [], terminal := StreamTerminal.fail e }).1.sh.screenshotQueue
      = [])
    ∧ ((generateResponseWithImages p images
        { chunks := [], terminal := StreamTerminal.fail e }).1.sh.extraScreenshotQueue
      = [])
    ∧ (∀ f ∈ p.sh.screenshotQueue,
        f ∉ (generateResponseWithImages p images
          { chunks := [], terminal := StreamTerminal.fail e }).1.sh.files)
    ∧ (∀ f ∈ p.sh.extraScreenshotQueue,
        f ∉ (generateResponseWithImages p images
          { chunks := [], terminal := StreamTerminal.fail e }).1.sh.files)
    ∧ (generateResponseWithImages p images
        { chunks := [], terminal := StreamTerminal.fail e }).1.view = View.initial
    ∧ (generateResponseWithImages p images
        { chunks := [], terminal := StreamTerminal.fail e }).2
      = { success := false, data := none, error := some timeoutRetMsg } := by
  unfold generateResponseWithImages
  simp only [ha, ht, Bool.false_eq_true, if_false, if_true, chunkEventList,
    accumulate, List.append_nil]
  simp [clearQueuesP, clearQueuesSH, cancel_sh, cancel_view2, cancel_locked,
    setViewP_view, setViewP_sh_screenshotQueue,
    setViewP_sh_extraScreenshotQueue, setViewP_sh_files]
  constructor
  · intro f hf
    exact not_mem_foldl_safeUnlink _ _ f
      (not_mem_foldl_safeUnlink_of_mem _ _ f hf)
  · intro f hf
    exact not_mem_foldl_safeUnlink_of_mem _ _ f hf

/-- C9 counterexample: a numeric-width update in the response view whose
width and height deltas are both zero is dropped by the anti-jitter check —
bounds, lastDimensions and windowSize are unchanged — yet the call mutates
the WindowGeometry state: lockedResponseWidth goes from none to 832, because
the width-resolution step runs before the delta check. -/
theorem c9_geometry_hysteresis_refuted :
    (setWindowDimensions waStd geoResp (WidthArg.px 832) 485 1000).bounds
      = geoResp.bounds
    ∧ (setWindowDimensions waStd geoResp (WidthArg.px 832) 485 1000).lastDimensions
      = geoResp.lastDimensions
    ∧ (setWindowDimensions waStd geoResp (WidthArg.px 832) 485 1000).windowSize
      = geoResp.windowSize
    ∧ geoResp.lockedResponseWidth = none
    ∧ (setWindowDimensions waStd geoResp
        (WidthArg.px 832) 485 1000).lockedResponseWidth = some 832 := by decide

theorem geoWidthStep_keeps (s : GeoState) (width : WidthArg) :
    ((geoWidthStep s width).1.bounds = s.bounds)
    ∧ ((geoWidthStep s width).1.lastDimensions = s.lastDimensions)
    ∧ ((geoWidthStep s width).1.windowSize = s.windowSize)
    ∧ ((geoWidthStep s width).1.view = s.view)
    ∧ ((geoWidthStep s width).1.isUpdatingDimensions = s.isUpdatingDimensions)
    ∧ ((geoWidthStep s width).1.lastUpdateTime = s.lastUpdateTime) := by
  refine ⟨?_, ?_, ?_, ?_, ?_, ?_⟩ <;>
  · unfold geoWidthStep
    repeat' split
    all_goals rfl

theorem geoWidthStep_locked (s : GeoState) (width : WidthArg) :
    (geoWidthStep s width).1.lockedResponseWidth =
    (match width with
     | WidthArg.fixed => s.lockedResponseWidth
     | WidthArg.px _ =>
         if s.view = View.initial then none
         else if s.lockedResponseWidth = none then some 832
         else s.lockedResponseWidth) := by
  unfold geoWidthStep
  cases width with
  | fixed =>
      rcases hl : s.lockedResponseWidth with _ | w <;>
        by_cases hv : s.view = View.response ∨ s.view = View.followup <;>
        simp [hl, hv]
  | px n =>
      cases hv : s.view <;>
        rcases hl : s.lockedResponseWidth with _ | w <;>
        simp [hv, hl]

/-- C9 amended: a geometry update within the minimum spacing window of the
previous update is dropped with no mutation at all; an update whose width
and height deltas are below the anti-jitter thresholds applies no bounds,
lastDimensions or windowSize change, but the width-resolution step that runs
before the delta check may still update lockedResponseWidth (clearing it in
the initial view, establishing 832 in the response/followup views when
unset); lockedResponseWidth, once established, is held fixed by every
update while the view stays away from initial, and is established by the
first numeric-width update that runs while the view is not initial. -/
theorem c9_geometry_hysteresis_amended (wa : WorkArea) (s : GeoState)
    (width : WidthArg) (height : Nat) (now : Nat) (w : Nat) :
    (now - s.lastUpdateTime < geoMinDelay width →
      setWindowDimensions wa s width height now = s)
    ∧ (geoMinDelay width ≤ now - s.lastUpdateTime →
       s.isUpdatingDimensions = false →
       natDiff (geoFinalDims wa (geoWidthStep
           { s with isUpdatingDimensions := true, lastUpdateTime := now }
           width).2 height).1 s.lastDimensions.1 < 25 →
       natDiff (geoFinalDims wa (geoWidthStep
           { s with isUpdatingDimensions := true, lastUpdateTime := now }
           width).2 height).2 s.lastDimensions.2 < 30 →
       0 < s.lastDimensions.1 →
       (setWindowDimensions wa s width height now).bounds = s.bounds
       ∧ (setWindowDimensions wa s width height now).lastDimensions
           = s.lastDimensions
       ∧ (setWindowDimensions wa s width height now).windowSize = s.windowSize
       ∧ (setWindowDimensions wa s width height now).lockedResponseWidth
           = (match width with
              | WidthArg.fixed => s.lockedResponseWidth
              | WidthArg.px _ =>
                  if s.view = View.initial then none
                  else if s.lockedResponseWidth = none then some 832
                  else s.lockedResponseWidth))
    ∧ (s.view ≠ View.initial → s.lockedResponseWidth = some w →
        (setWindowDimensions wa s width height now).lockedResponseWidth
          = some w)
    ∧ (∀ n, s.view ≠ View.initial → s.lockedResponseWidth = none →
        geoMinDelay (WidthArg.px n) ≤ now - s.lastUpdateTime →
        s.isUpdatingDimensions = false →
        (setWindowDimensions wa s (WidthArg.px n) height now).lockedResponseWidth
          = some 832) := by
  refine ⟨?_, ?_, ?_, ?_⟩
  · intro h
    unfold setWindowDimensions
    rw [if_pos h]
  · intro h1 h2 h3 h4 h5
    unfold setWindowDimensions
    rw [if_neg (not_lt.mpr h1), if_neg (by simp [h2])]
    dsimp only
    rw [if_pos ⟨by simpa [geoWidthStep_keeps] using h3,
                by simpa [geoWidthStep_keeps] using h4,
                by simpa [geoWidthStep_keeps] using h5⟩]
    refine ⟨?_, ?_, ?_, ?_⟩ <;>
      simp [geoWidthStep_keeps, geoWidthStep_locked]
  · intro hv hlw
    have h2f : (geoWidthStep
        { s with isUpdatingDimensions := true, lastUpdateTime := now }
        width).1.lockedResponseWidth = some w := by
      rw [geoWidthStep_locked]
      cases width with
      | fixed => exact hlw
      | px n => simp [hv, hlw]
    unfold setWindowDimensions
    cases width <;>
    · dsimp only
      repeat' split
      all_goals first | exact hlw | exact h2f
  · intro n hv hln hdelay hupd
    have h2 : (geoWidthStep
        { s with isUpdatingDimensions := true, lastUpdateTime := now }
        (WidthArg.px n)).1.lockedResponseWidth = some 832 := by
      rw [geoWidthStep_locked]
      simp [hv, hln]
    unfold setWindowDimensions
    rw [if_neg (not_lt.mpr hdelay), if_neg (by simp [hupd])]
    dsimp only
    repeat' split
    all_goals exact h2

/-- Witness for C2 amended at a concrete partial-stream run. -/
theorem c2_partial_preservation_initial_witness :
    (processScreenshots pIdleQueued (fun _ => validStr)
        { chunks := ["Hel", "lo"],
          terminal := StreamTerminal.fail
            { message := "boom", name := none, code := none, status := none,
              dataError := none } } (some "key")).1.view = View.response
    ∧ (processScreenshots pIdleQueued (fun _ => validStr)
        { chunks := ["Hel", "lo"],
          terminal := StreamTerminal.fail
            { message := "boom", name := none, code := none, status := none,
              dataError := none } } (some "key")).1.previousResponse
      = some (accumulate "" ["Hel", "lo"]) := by
  have h := c2_partial_preservation_initial pIdleQueued (fun _ => validStr)
    { message := "boom", name := none, code := none, status := none,
      dataError := none } ["Hel", "lo"] "key" rfl rfl (by decide) (by decide)
  exact ⟨h.2.2.1, h.2.2.2.1⟩

/-- Witness for C5 at concrete rate-limit and generic failures. -/
theorem c5_rate_limit_retains_view_witness :
    (processScreenshots pIdleQueued (fun _ => validStr)
        { chunks := [],
          terminal := StreamTerminal.fail
            { message := "429 Too Many Requests", name := none, code := none,
              status := none, dataError := none } } (some "key")).1.view
      = View.response
    ∧ (processScreenshots pIdleQueued (fun _ => validStr)
        { chunks := [],
          terminal := StreamTerminal.fail
            { message := "Server exploded", name := none, code := none,
              status := none, dataError := none } } (some "key")).1.view
      = View.initial := by
  have h := c5_rate_limit_retains_view pIdleQueued (fun _ => validStr)
    { message := "429 Too Many Requests", name := none, code := none,
      status := none, dataError := none }
    { message := "Server exploded", name := none, code := none,
      status := none, dataError := none } "key"
    rfl rfl (by decide) (by decide) (by decide) (by decide) (by decide)
    (by decide) (by decide) (by decide) (by decide) (by decide) (by decide)
    (by decide) (by decide)
  exact ⟨h.1, h.2.2⟩

/-- Witness for C8 at a concrete ETIMEDOUT failure with queued captures. -/
theorem c8_network_timeout_clears_witness :
    ((generateResponseWithImages pResp [validStr]
        { chunks := [],
          terminal := StreamTerminal.fail
            { message := "connect ETIMEDOUT", name := none,
              code := some "ETIMEDOUT", status := none,
              dataError := none } }).1.sh.screenshotQueue = [])
    ∧ (generateResponseWithImages pResp [validStr]
        { chunks := [],
          terminal := StreamTerminal.fail
            { message := "connect ETIMEDOUT", name := none,
              code := some "ETIMEDOUT", status := none,
              dataError := none } }).1.view = View.initial := by
  have h := c8_network_timeout_clears pResp [validStr]
    { message := "connect ETIMEDOUT", name := none, code := some "ETIMEDOUT",
      status := none, dataError := none } (by decide) (by decide)
  exact ⟨h.1, h.2.2.2.2.1⟩

/-- Witness for C9 amended at a concrete rate-limited call. -/
theorem c9_geometry_hysteresis_amended_witness :
    100 - geoResp.lastUpdateTime < geoMinDelay (WidthArg.px 832)
    ∧ setWindowDimensions waStd geoResp (WidthArg.px 832) 485 100 = geoResp :=
  ⟨by decide,
   (c9_geometry_hysteresis_amended waStd geoResp (WidthArg.px 832) 485 100
     0).1 (by decide)⟩

end PhantomLens
